import Mathlib

/-!
Verification development for the zbx-hpmsa monitoring script
(src/zbx-hpmsa.py).  The script authenticates against an HP MSA storage
array's XML API, caches the session key in a SQLite table, and extracts
discovery (LLD) and metric data for storage components.

Shallow embedding conventions:
- the SQLite table `skey_cache` is a list of rows; the database file is a
  `CacheDB` value that can also be in the "table absent" state (the
  `sqlite3.OperationalError: no such table` path of `sql_cmd`) or in a
  generic operational-error state (the other `OperationalError` path);
- Python exceptions that terminate the script are an `Except PyErr` error:
  `SystemExit msg`, `AttributeError` (from `None.text`), and `KeyError`
  (from a missing dict key);
- the network (`query_xmlapi`) is an oracle: `get_skey` receives the parsed
  login response (return code and response text, the session key on
  success) as a parameter, and the extractors receive the parsed XML
  response;
- timestamps are integers in epoch seconds; `timedelta(minutes=30)` is
  1800 seconds;
- Python dicts are association lists with unique keys: assignment to an
  existing key overwrites in place, assignment to a new key appends, which
  matches CPython's insertion-order semantics.
-/

deriving instance DecidableEq for Except

/-- Python exceptions that the script can die with. -/
inductive PyErr where
  | systemExit (msg : String)
  | attributeError
  | keyError (key : String)
deriving DecidableEq, Repr

/-- One row of the `skey_cache` SQLite table:
schema `(dns_name, ip, proto, expired, skey)`, primary key
`(dns_name, ip, proto)`.  `expired` is stored as an epoch timestamp. -/
structure CacheRow where
  dns : String
  ip : String
  proto : String
  expired : Int
  skey : String
deriving DecidableEq, Repr

/-- The state of the cache database file: the `skey_cache` table may be
present, absent (`no such table`), or any query may fail with another
`sqlite3.OperationalError` (modelled by `corrupt`). -/
inductive CacheDB where
  | noTable
  | corrupt (err : String)
  | table (rows : List CacheRow)
deriving DecidableEq, Repr

/-- Embedding of `sql_cmd` for read queries.  The source connects to
`CACHE_DB` and executes the query; an `OperationalError` whose text starts
with `no such table` becomes `SystemExit("Cache is empty")`, any other
`OperationalError` during execution becomes
`SystemExit("ERROR: {e}. Query: {query}")`.  (The outer `except` around
`sqlite3.connect`, which only prints, is not reachable in the table /
no-table / execution-error states modelled here.) -/
def sql_cmd {α : Type} (db : CacheDB) (query : String) (run : List CacheRow → α) :
    Except PyErr α :=
  match db with
  | .noTable => .error (.systemExit "Cache is empty")
  | .corrupt e => .error (.systemExit ("ERROR: " ++ e ++ ". Query: " ++ query))
  | .table rows => .ok (run rows)

/-- Embedding of `sql_cmd` for write queries (INSERT / UPDATE): same error
behaviour, but the table rows are transformed. -/
def sql_write (db : CacheDB) (query : String) (f : List CacheRow → List CacheRow) :
    Except PyErr CacheDB :=
  match db with
  | .noTable => .error (.systemExit "Cache is empty")
  | .corrupt e => .error (.systemExit ("ERROR: " ++ e ++ ". Query: " ++ query))
  | .table rows => .ok (.table (f rows))

/-- Global configuration relevant to `get_skey`: `USE_SSL`, `VERIFY_SSL`
and the hashed login string (the latter only appears in the login URL). -/
structure SkeyCfg where
  useSSL : Bool
  verifySSL : Bool
  hashedLogin : String
deriving DecidableEq, Repr

/-- Parsed result of `query_xmlapi` on the login URL: the `return-code`
property and the `response` property (which carries the session key when
the return code is "1"). -/
structure LoginResp where
  retCode : String
  response : String
deriving DecidableEq, Repr

/-- Observable outcome of one `get_skey` run: the returned Python value
(`some s` for a returned string, `none` for Python's implicit `None`), the
state of the cache database afterwards, and how many login requests were
issued over the network. -/
structure SkeyOut where
  result : Option String
  db : CacheDB
  logins : Nat
deriving DecidableEq, Repr

/-- Row filter of the http-mode queries: `WHERE ip="{ip}" AND proto="http"`
(the DNS name does not participate). -/
def httpMatch (ip : String) (r : CacheRow) : Bool :=
  r.ip == ip && r.proto == "http"

/-- Row filter of the https-mode queries:
`WHERE dns_name="{dns}" AND ip="{ip}" AND proto="https"`. -/
def httpsMatch (dns ip : String) (r : CacheRow) : Bool :=
  r.dns == dns && r.ip == ip && r.proto == "https"

/-- The cache lookup of `get_skey` (`msa` is the `(ip, dns_name)` pair):
`fetchone` on the http or https SELECT, i.e. the first matching row. -/
def selectCache (ssl : Bool) (msa : String × String) (rows : List CacheRow) :
    Option CacheRow :=
  if ssl then rows.find? (httpsMatch msa.2 msa.1)
  else rows.find? (httpMatch msa.1)

/-- SELECT query text used by the cached-key lookup. -/
def qSelect (ssl : Bool) (msa : String × String) : String :=
  if ssl then
    "SELECT expired,skey FROM skey_cache WHERE dns_name=\"" ++ msa.2 ++
      "\" AND IP =\"" ++ msa.1 ++ "\" AND proto=\"https\""
  else
    "SELECT expired,skey FROM skey_cache WHERE ip=\"" ++ msa.1 ++
      "\" AND proto=\"http\""

/-- Updated row written by the SQL UPDATE: `SET skey=..., expired=...`. -/
def updRow (expired : Int) (skey : String) (r : CacheRow) : CacheRow :=
  { r with expired := expired, skey := skey }

/-- Embedding of the `use_cache=False` branch of `get_skey`: issue the
login request (its parsed response is the `resp` parameter), and on return
code "1" upsert the cache row with expiry `now + 1800` seconds (30
minutes) and return the session key; on return code "2" return the string
"2"; on any other return code fall off the end of the function (Python
returns `None`). -/
def get_skey_login (cfg : SkeyCfg) (db : CacheDB) (msa : String × String)
    (now : Int) (resp : LoginResp) : Except PyErr SkeyOut :=
  if resp.retCode = "1" then
    let expired := now + 1800
    if cfg.useSSL = false then
      match sql_cmd db ("SELECT ip FROM skey_cache WHERE ip = \"" ++ msa.1 ++
          "\" AND proto=\"http\"") (fun rows => rows.find? (httpMatch msa.1)) with
      | .error e => .error e
      | .ok none =>
        match sql_write db "INSERT INTO skey_cache VALUES (...)"
            (fun rows => rows ++ [⟨msa.2, msa.1, "http", expired, resp.response⟩]) with
        | .error e => .error e
        | .ok db2 => .ok ⟨some resp.response, db2, 1⟩
      | .ok (some _) =>
        match sql_write db "UPDATE skey_cache SET skey=..., expired=... WHERE ip=... AND proto=\"http\""
            (fun rows => rows.map (fun r =>
              if httpMatch msa.1 r then updRow expired resp.response r else r)) with
        | .error e => .error e
        | .ok db2 => .ok ⟨some resp.response, db2, 1⟩
    else
      match sql_cmd db ("SELECT dns_name, ip FROM skey_cache WHERE dns_name=\"" ++ msa.2 ++
          "\" AND ip=\"" ++ msa.1 ++ "\" AND proto=\"https\"")
          (fun rows => rows.find? (httpsMatch msa.2 msa.1)) with
      | .error e => .error e
      | .ok none =>
        match sql_write db "INSERT INTO skey_cache VALUES (...)"
            (fun rows => rows ++ [⟨msa.2, msa.1, "https", expired, resp.response⟩]) with
        | .error e => .error e
        | .ok db2 => .ok ⟨some resp.response, db2, 1⟩
      | .ok (some _) =>
        match sql_write db "UPDATE skey_cache SET skey = ..., expired = ... WHERE dns_name=... AND ip=... AND proto=\"https\""
            (fun rows => rows.map (fun r =>
              if httpsMatch msa.2 msa.1 r then updRow expired resp.response r else r)) with
        | .error e => .error e
        | .ok db2 => .ok ⟨some resp.response, db2, 1⟩
  else if resp.retCode = "2" then
    .ok ⟨some "2", db, 1⟩
  else
    .ok ⟨none, db, 1⟩

/-- Embedding of `get_skey` with `use_cache=True` (the entry point used by
the CLI): look up the cache row for the endpoint and active protocol; if
one exists and `cur_timestamp < float(cache_expired)` return the cached
key with no network call; otherwise fall through to the
`use_cache=False` branch (`get_skey_login`). -/
def get_skey (cfg : SkeyCfg) (db : CacheDB) (msa : String × String)
    (now : Int) (resp : LoginResp) : Except PyErr SkeyOut :=
  match sql_cmd db (qSelect cfg.useSSL msa) (selectCache cfg.useSSL msa) with
  | .error e => .error e
  | .ok (some r) =>
    if now < r.expired then .ok ⟨some r.skey, db, 0⟩
    else get_skey_login cfg db msa now resp
  | .ok none => get_skey_login cfg db msa now resp

/-- A parsed XML OBJECT: its PROPERTY children (name, text) and its nested
OBJECT children with their own PROPERTY children.  A PROPERTY that occurs
in the list is present; `ElementTree.find` returning `None` is a `none`
lookup result. -/
structure XObj where
  props : List (String × String)
  subobjs : List (String × List (String × String))
deriving DecidableEq, Repr

/-- A parsed XML API response: the status envelope (`return-code` and
`response` properties of the `status` object) and the top-level OBJECT
elements with their `@name` attributes. -/
structure ApiResp where
  retCode : String
  retDesc : String
  objs : List (String × XObj)
deriving DecidableEq, Repr

/-- Embedding of `find("./OBJECT[@name=objName]/PROPERTY[@name=propName]")`
on an OBJECT: the first nested object of that name carrying the property,
in document order. -/
def findSubProp (o : XObj) (objName propName : String) : Option String :=
  (o.subobjs.filterMap
    (fun np => if np.1 = objName then np.2.lookup propName else none)).head?

/-- Top-level objects of a response with the given `@name` attribute, i.e.
`xml.findall("./OBJECT[@name=name]")`. -/
def objsNamed (resp : ApiResp) (name : String) : List XObj :=
  resp.objs.filterMap (fun no => if no.1 = name then some no.2 else none)

/-- Python dict assignment `d[k] = v` on an association list with unique
keys: overwrite in place if the key exists, append otherwise. -/
def pyDictSet {α : Type} : List (String × α) → String → α → List (String × α)
  | [], k, v => [(k, v)]
  | (k2, v2) :: rest, k, v =>
    if k2 = k then (k2, v) :: rest else (k2, v2) :: pyDictSet rest k v

/-- The `comp_names_map` dict of `make_lld`: CLI component name to XML
OBJECT name. -/
def comp_names_map : List (String × String) :=
  [("disks", "drive"), ("vdisks", "virtual-disk"), ("pools", "pools"),
   ("disk-groups", "disk-group"), ("volumes", "volume"),
   ("controllers", "controllers"), ("enclosures", "enclosures"),
   ("power-supplies", "power-supplies"), ("fans", "fan-details"),
   ("ports", "ports")]

/-- The `comp_props_map` dict of `make_lld`: component name to the list of
(Zabbix macro, XML property name) pairs, in source order. -/
def comp_props_map : List (String × List (String × String)) :=
  [("vdisks", [("\x7b#VDISK.ID\x7d", "name"), ("\x7b#VDISK.TYPE\x7d", "storage-type")]),
   ("fans", [("\x7b#FAN.ID\x7d", "durable-id"), ("\x7b#FAN.LOCATION\x7d", "location")]),
   ("ports", [("\x7b#PORT.ID\x7d", "port"), ("\x7b#PORT.TYPE\x7d", "port-type"),
              ("\x7b#PORT.SPEED\x7d", "actual-speed")]),
   ("pools", [("\x7b#POOL.ID\x7d", "name"), ("\x7b#POOL.SN\x7d", "serial-number"),
              ("\x7b#POOL.TYPE\x7d", "storage-type")]),
   ("enclosures", [("\x7b#ENCLOSURE.ID\x7d", "enclosure-id"),
                   ("\x7b#ENCLOSURE.SN\x7d", "midplane-serial-number")]),
   ("volumes", [("\x7b#VOLUME.ID\x7d", "volume-name"), ("\x7b#VOLUME.SN\x7d", "serial-number"),
                ("\x7b#VOLUME.TYPE\x7d", "volume-type")]),
   ("power-supplies", [("\x7b#POWERSUPPLY.ID\x7d", "durable-id"),
                       ("\x7b#POWERSUPPLY.LOCATION\x7d", "location"),
                       ("\x7b#POWERSUPPLY.NAME\x7d", "name")]),
   ("disks", [("\x7b#DISK.ID\x7d", "location"), ("\x7b#DISK.SN\x7d", "serial-number"),
              ("\x7b#DISK.MODEL\x7d", "model"), ("\x7b#DISK.ARCH\x7d", "architecture")]),
   ("disk-groups", [("\x7b#DG.ID\x7d", "name"), ("\x7b#DG.SN\x7d", "serial-number"),
                    ("\x7b#DG.TYPE\x7d", "storage-type"), ("\x7b#DG.TIER\x7d", "storage-tier")]),
   ("controllers", [("\x7b#CONTROLLER.ID\x7d", "controller-id"),
                    ("\x7b#CONTROLLER.SN\x7d", "serial-number"),
                    ("\x7b#CONTROLLER.IP\x7d", "ip-address"),
                    ("\x7b#CONTROLLER.WWN\x7d", "node-wwn")]) ]

/-- The per-instance dict built by the `make_lld` loop body: for each
(macro, property) pair, the property text, or the "UNKNOWN" sentinel when
the property is missing (the `except AttributeError` workaround); for
`ports` the additional SFP workaround reads the `sfp-present` property of
the `port-details` sub-object. -/
def lldEntry (component : String) (pm : List (String × String)) (o : XObj) :
    List (String × String) :=
  let base := pm.map (fun kv => (kv.1, (o.props.lookup kv.2).getD "UNKNOWN"))
  if component = "ports" then
    base ++ [("\x7b#PORT.SFP\x7d", (findSubProp o "port-details" "sfp-present").getD "UNKNOWN")]
  else base

/-- Embedding of `make_lld` up to JSON serialisation: the list under the
"data" key of the returned JSON, each entry an insertion-ordered dict.
A non-"0" return code raises `SystemExit`; an unmapped component name
raises `KeyError` (unreachable from the CLI, whose choices are the ten
mapped names). -/
def make_lld (resp : ApiResp) (component : String) :
    Except PyErr (List (List (String × String))) :=
  if resp.retCode ≠ "0" then
    .error (.systemExit ("ERROR: " ++ resp.retCode ++ " : " ++ resp.retDesc))
  else
    match comp_names_map.lookup component with
    | none => .error (.keyError component)
    | some apiName =>
      match comp_props_map.lookup component with
      | none => .error (.keyError component)
      | some pm => .ok ((objsNamed resp apiName).map (lldEntry component pm))

/-- The `sfp_status_map` dict of the ports branch of `get_full_json`:
textual SFP status to numeric code, for firmware that lacks the numeric
property. -/
def sfp_status_map : List (String × String) :=
  [("Not compatible", "0"), ("Incorrect protocol", "1"),
   ("Not present", "2"), ("OK", "3")]

/-- The ports loop body of `get_full_json`: one port OBJECT to
`(port_name, port_full_data)`.  A missing required property is the
`AttributeError` of `None.text`; an SFP textual status outside
`sfp_status_map` is a `KeyError`.  `ps` is first set from the textual
`status` property and overwritten from `status-numeric` when present; the
same numeric-else-mapped-textual logic fills `ss` / `sfps` from the
`port-details` sub-object. -/
def portFullData (o : XObj) : Except PyErr (String × List (String × String)) :=
  match o.props.lookup "port" with
  | none => .error .attributeError
  | some pn =>
  match o.props.lookup "health-numeric" with
  | none => .error .attributeError
  | some h =>
  match o.props.lookup "port-type" with
  | none => .error .attributeError
  | some pt =>
  match o.props.lookup "actual-speed" with
  | none => .error .attributeError
  | some pas =>
  match o.props.lookup "status" with
  | none => .error .attributeError
  | some st =>
  let base := [("h", h), ("pt", pt), ("pas", pas), ("ps", st)]
  let d1 := match o.props.lookup "status-numeric" with
            | some v => pyDictSet base "ps" v
            | none => base
  match findSubProp o "port-details" "sfp-status-numeric",
        findSubProp o "port-details" "sfp-status" with
  | some n, some c => .ok (pn, pyDictSet (pyDictSet d1 "ss" n) "sfps" c)
  | some _, none => .error .attributeError
  | none, some c =>
    match sfp_status_map.lookup c with
    | some code => .ok (pn, pyDictSet (pyDictSet d1 "ss" code) "sfps" c)
    | none => .error (.keyError c)
  | none, none => .ok (pn, d1)

/-- The `for FC in xml.findall(...)` loop of the ports branch, building
`all_components`. -/
def portsLoop : List XObj → List (String × List (String × String)) →
    Except PyErr (List (String × List (String × String)))
  | [], acc => .ok acc
  | o :: rest, acc =>
    match portFullData o with
    | .error e => .error e
    | .ok kd => portsLoop rest (pyDictSet acc kd.1 kd.2)

/-- Embedding of the `component == 'ports'` branch of `get_full_json`, up
to JSON serialisation: the `all_components` dict. -/
def getFullPorts (resp : ApiResp) :
    Except PyErr (List (String × List (String × String))) :=
  if resp.retCode ≠ "0" then
    .error (.systemExit ("ERROR: " ++ resp.retCode ++ " : " ++ resp.retDesc))
  else portsLoop (objsNamed resp "ports") []

/-- The voltage-regulator test of the power-supplies branch:
`ps_name.lower().find('voltage regulator') != -1`, i.e. the lower-cased
name contains "voltage regulator". -/
def hasSubstr : List Char → List Char → Bool
  | [], needle => needle.isEmpty
  | c :: t, needle => needle.isPrefixOf (c :: t) || hasSubstr t needle

/-- Case-insensitive containment of "voltage regulator" in a name. -/
def isVoltageRegulator (name : String) : Bool :=
  hasSubstr (name.data.map Char.toLower) "voltage regulator".data

/-- The power-supplies loop body of `get_full_json`: one power-supply
OBJECT to `some (ps_id, ps_full_data)`, or `none` when the instance is a
voltage regulator (the branch adds nothing to `all_components` then).
The optional `dctemp` property is appended as `t` only when present. -/
def psFullData (o : XObj) :
    Except PyErr (Option (String × List (String × String))) :=
  match o.props.lookup "durable-id" with
  | none => .error .attributeError
  | some psid =>
  match o.props.lookup "name" with
  | none => .error .attributeError
  | some nm =>
  if isVoltageRegulator nm then .ok none
  else
    match o.props.lookup "health-numeric", o.props.lookup "status-numeric",
          o.props.lookup "dc12v", o.props.lookup "dc5v", o.props.lookup "dc33v",
          o.props.lookup "dc12i", o.props.lookup "dc5i" with
    | some h, some s, some v12, some v5, some v33, some i12, some i5 =>
      let base := [("h", h), ("s", s), ("12v", v12), ("5v", v5),
                   ("33v", v33), ("12i", i12), ("5i", i5)]
      match o.props.lookup "dctemp" with
      | some t => .ok (some (psid, pyDictSet base "t" t))
      | none => .ok (some (psid, base))
    | _, _, _, _, _, _, _ => .error .attributeError

/-- The `for PS in xml.findall(...)` loop of the power-supplies branch. -/
def psLoop : List XObj → List (String × List (String × String)) →
    Except PyErr (List (String × List (String × String)))
  | [], acc => .ok acc
  | o :: rest, acc =>
    match psFullData o with
    | .error e => .error e
    | .ok none => psLoop rest acc
    | .ok (some kd) => psLoop rest (pyDictSet acc kd.1 kd.2)

/-- Embedding of the `component == 'power-supplies'` branch of
`get_full_json`, up to JSON serialisation. -/
def getFullPowerSupplies (resp : ApiResp) :
    Except PyErr (List (String × List (String × String))) :=
  if resp.retCode ≠ "0" then
    .error (.systemExit ("ERROR: " ++ resp.retCode ++ " : " ++ resp.retDesc))
  else psLoop (objsNamed resp "power-supplies") []

/-- The `m` dict of `expand_dict`: short metric key to human-readable
name. -/
def m_expand : List (String × String) :=
  [("h", "health"), ("s", "status"), ("ow", "owner"), ("owp", "owner-preferred"),
   ("t", "temperature"), ("ts", "temperature-status"), ("cj", "current-job"),
   ("poh", "power-on-hours"), ("rs", "redundancy-status"), ("fw", "firmware-version"),
   ("sp", "speed"), ("ps", "port-status"), ("ss", "sfp-status"),
   ("fh", "flash-health"), ("fs", "flash-status"), ("12v", "power-12v"),
   ("5v", "power-5v"), ("33v", "power-33v"), ("12i", "power-12i"),
   ("5i", "power-5i"), ("io", "iops"), ("cpu", "cpu-load"),
   ("cjp", "current-job-completion")]

/-- The inner loop of `expand_dict`: `h_metrics[m[key]] = metrics[key]`
for each key of one instance's metric dict; a key absent from `m` is a
`KeyError`. -/
def expandLoop : List (String × String) → List (String × String) →
    Except PyErr (List (String × String))
  | [], acc => .ok acc
  | (k, v) :: rest, acc =>
    match m_expand.lookup k with
    | some fk => expandLoop rest (pyDictSet acc fk v)
    | none => .error (.keyError k)

/-- Metric-dict expansion of one instance. -/
def expand_metrics (ms : List (String × String)) :
    Except PyErr (List (String × String)) :=
  expandLoop ms []

/-- The outer loop of `expand_dict` over `init_dict.items()`. -/
def expandDictLoop : List (String × List (String × String)) →
    List (String × List (String × String)) →
    Except PyErr (List (String × List (String × String)))
  | [], acc => .ok acc
  | (cid, ms) :: rest, acc =>
    match expand_metrics ms with
    | .error e => .error e
    | .ok hm => expandDictLoop rest (pyDictSet acc cid hm)

/-- Embedding of `expand_dict`. -/
def expand_dict (init : List (String × List (String × String))) :
    Except PyErr (List (String × List (String × String))) :=
  expandDictLoop init []

/-- The value of the ports dict after the `ps`-overwrite step, given the
five required properties: `ps` holds `status-numeric` when present and the
textual `status` otherwise (used to characterise `portFullData`). -/
def portBase (o : XObj) (h pt pas st : String) : List (String × String) :=
  match o.props.lookup "status-numeric" with
  | some v => [("h", h), ("pt", pt), ("pas", pas), ("ps", v)]
  | none => [("h", h), ("pt", pt), ("pas", pas), ("ps", st)]

/-- Lookup in a key-preserving map of an association list. -/
theorem lookup_lldmap (o : XObj) (pm : List (String × String)) (a : String) :
    (pm.map (fun kv => (kv.1, (o.props.lookup kv.2).getD "UNKNOWN"))).lookup a
      = (pm.lookup a).map (fun prop => (o.props.lookup prop).getD "UNKNOWN") := by
  induction pm with
  | nil => rfl
  | cons kv t ih =>
    cases h : a == kv.1 <;> simp [List.lookup, h, ih]

/-- Lookup distributes to the right part of an append when the left part
misses. -/
theorem lookup_append_none {α : Type} {l1 : List (String × α)} (l2 : List (String × α))
    (a : String) (h : l1.lookup a = none) : (l1 ++ l2).lookup a = l2.lookup a := by
  induction l1 with
  | nil => rfl
  | cons kv t ih =>
    simp only [List.cons_append, List.lookup] at h ⊢
    cases hk : a == kv.1
    · simp only [hk] at h ⊢
      exact ih h
    · simp only [hk] at h
      simp at h

/-- Lookup stays in the left part of an append when the left part hits. -/
theorem lookup_append_some {α : Type} {l1 : List (String × α)} (l2 : List (String × α))
    (a : String) (v : α) (h : l1.lookup a = some v) : (l1 ++ l2).lookup a = some v := by
  induction l1 with
  | nil => simp [List.lookup] at h
  | cons kv t ih =>
    simp only [List.cons_append, List.lookup] at h ⊢
    cases hk : a == kv.1
    · simp only [hk] at h ⊢
      exact ih h
    · simp only [hk] at h ⊢
      exact h

/-- `find?` skips a prefix in which it finds nothing. -/
theorem find_append_of_none {α : Type} {p : α → Bool} {l1 : List α} (l2 : List α)
    (h : l1.find? p = none) : (l1 ++ l2).find? p = l2.find? p := by
  induction l1 with
  | nil => rfl
  | cons a t ih =>
    cases hp : p a <;> simp_all [List.find?, hp]

/-- `find?` commutes with an update applied exactly to the matching rows,
when the update preserves the predicate. -/
theorem find_map_update {α : Type} (p : α → Bool) (f : α → α)
    (hf : ∀ r, p (f r) = p r) (l : List α) :
    (l.map (fun r => if p r then f r else r)).find? p = (l.find? p).map f := by
  induction l with
  | nil => rfl
  | cons a t ih =>
    cases hp : p a
    · simp [List.find?, hp, ih]
    · simp [List.find?, hp, hf]

/-- Every entry of a Python dict after an assignment is the assigned pair
or an entry that was already present. -/
theorem mem_pyDictSet {α : Type} {d : List (String × α)} {k : String} {v : α}
    {e : String × α} (h : e ∈ pyDictSet d k v) : e = (k, v) ∨ e ∈ d := by
  induction d with
  | nil => simpa [pyDictSet] using h
  | cons kv t ih =>
    rcases kv with ⟨k2, v2⟩
    by_cases hk : k2 = k
    · simp only [pyDictSet, if_pos hk] at h
      rcases List.mem_cons.mp h with h1 | h2
      · exact Or.inl (by rw [h1, hk])
      · exact Or.inr (List.mem_cons_of_mem _ h2)
    · simp only [pyDictSet, if_neg hk] at h
      rcases List.mem_cons.mp h with h1 | h2
      · exact Or.inr (h1 ▸ List.mem_cons_self _ _)
      · rcases ih h2 with h3 | h4
        · exact Or.inl h3
        · exact Or.inr (List.mem_cons_of_mem _ h4)

/-- Every entry of the power-supplies `all_components` dict comes either
from the accumulator or from some processed (non-skipped) object. -/
theorem psLoop_mem (objs : List XObj) :
    ∀ (acc l : List (String × List (String × String))),
      psLoop objs acc = .ok l → ∀ e ∈ l,
        e ∈ acc ∨ ∃ o, o ∈ objs ∧ psFullData o = .ok (some e) := by
  induction objs with
  | nil =>
    intro acc l h e he
    simp only [psLoop] at h
    cases h
    exact Or.inl he
  | cons o rest ih =>
    intro acc l h e he
    simp only [psLoop] at h
    cases hps : psFullData o with
    | error err => rw [hps] at h; cases h
    | ok kd =>
      rw [hps] at h
      cases kd with
      | none =>
        rcases ih acc l h e he with h1 | ⟨o2, ho2, h2⟩
        · exact Or.inl h1
        · exact Or.inr ⟨o2, List.mem_cons_of_mem _ ho2, h2⟩
      | some kv =>
        rcases ih _ l h e he with h1 | ⟨o2, ho2, h2⟩
        · rcases mem_pyDictSet h1 with h3 | h4
          · exact Or.inr ⟨o, List.mem_cons_self _ _, by rw [hps, h3]⟩
          · exact Or.inl h4
        · exact Or.inr ⟨o2, List.mem_cons_of_mem _ ho2, h2⟩

/-- After a successful login (`return-code` "1"), `get_skey_login` on a
present table returns the new session key, performs exactly one login,
leaves the table with a row for the endpoint and active protocol whose
expiry is thirty minutes after the current time, and that row is the one
the cache lookup finds. -/
theorem login_success_state (cfg : SkeyCfg) (rows : List CacheRow)
    (msa : String × String) (now : Int) (resp : LoginResp)
    (h1 : resp.retCode = "1") :
    ∃ rows2 r, get_skey_login cfg (.table rows) msa now resp
        = .ok ⟨some resp.response, .table rows2, 1⟩
      ∧ selectCache cfg.useSSL msa rows2 = some r
      ∧ r.expired = now + 1800 ∧ r.skey = resp.response := by
  cases hssl : cfg.useSSL
  · -- http mode
    cases hf : rows.find? (httpMatch msa.1) with
    | none =>
      refine ⟨rows ++ [⟨msa.2, msa.1, "http", now + 1800, resp.response⟩],
        ⟨msa.2, msa.1, "http", now + 1800, resp.response⟩, ?_, ?_, rfl, rfl⟩
      · simp [get_skey_login, h1, hssl, sql_cmd, sql_write, hf]
      · simp [selectCache, hssl, find_append_of_none _ hf, List.find?, httpMatch]
    | some r0 =>
      refine ⟨rows.map (fun r => if httpMatch msa.1 r
          then updRow (now + 1800) resp.response r else r),
        updRow (now + 1800) resp.response r0, ?_, ?_, rfl, rfl⟩
      · simp [get_skey_login, h1, hssl, sql_cmd, sql_write, hf]
      · simp [selectCache, hssl,
          find_map_update (httpMatch msa.1) (updRow (now + 1800) resp.response)
            (fun r => rfl) rows, hf]
  · -- https mode
    cases hf : rows.find? (httpsMatch msa.2 msa.1) with
    | none =>
      refine ⟨rows ++ [⟨msa.2, msa.1, "https", now + 1800, resp.response⟩],
        ⟨msa.2, msa.1, "https", now + 1800, resp.response⟩, ?_, ?_, rfl, rfl⟩
      · simp [get_skey_login, h1, hssl, sql_cmd, sql_write, hf]
      · simp [selectCache, hssl, find_append_of_none _ hf, List.find?, httpsMatch]
    | some r0 =>
      refine ⟨rows.map (fun r => if httpsMatch msa.2 msa.1 r
          then updRow (now + 1800) resp.response r else r),
        updRow (now + 1800) resp.response r0, ?_, ?_, rfl, rfl⟩
      · simp [get_skey_login, h1, hssl, sql_cmd, sql_write, hf]
      · simp [selectCache, hssl,
          find_map_update (httpsMatch msa.2 msa.1) (updRow (now + 1800) resp.response)
            (fun r => rfl) rows, hf]

/-- C1 counterexample: a login returning code "2" on an empty (but
initialised) cache makes `get_skey` return the string "2" as its result —
an ordinary return value, not a raised authentication error — refuting
the claim that it never returns "2" to the caller. -/
theorem claim_C1_counterexample :
    get_skey ⟨false, false, "abc123"⟩ (.table []) ("10.0.0.5", "msa1") 1000
        ⟨"2", "Authentication Unsuccessful"⟩
      = .ok ⟨some "2", .table [], 1⟩ := by
  decide

/-- C1 (amended): for every login whose API response has return-code "2"
(reached whenever the cache lookup does not yield an unexpired entry),
`get_skey` returns the string "2" as an ordinary value — it does not raise
— and no cache entry is written for that endpoint. -/
theorem claim_C1 (cfg : SkeyCfg) (rows : List CacheRow) (msa : String × String)
    (now : Int) (resp : LoginResp) (h2 : resp.retCode = "2")
    (hmiss : ∀ r, selectCache cfg.useSSL msa rows = some r → r.expired ≤ now) :
    get_skey cfg (.table rows) msa now resp = .ok ⟨some "2", .table rows, 1⟩ := by
  have hlogin : get_skey_login cfg (.table rows) msa now resp
      = .ok ⟨some "2", .table rows, 1⟩ := by
    simp [get_skey_login, h2]
  simp only [get_skey, sql_cmd]
  cases hsel : selectCache cfg.useSSL msa rows with
  | none => exact hlogin
  | some r =>
    simp only []
    rw [if_neg (not_lt.mpr (hmiss r hsel))]
    exact hlogin

/-- C1 witness: the amended theorem applied at a concrete input. -/
theorem claim_C1_witness :
    get_skey ⟨true, true, "abc123"⟩ (.table []) ("10.0.0.9", "msa2") 500
        ⟨"2", "Authentication Unsuccessful"⟩
      = .ok ⟨some "2", .table [], 1⟩ :=
  claim_C1 ⟨true, true, "abc123"⟩ [] ("10.0.0.9", "msa2") 500
    ⟨"2", "Authentication Unsuccessful"⟩ rfl
    (fun r h => by simp [selectCache, List.find?] at h)

/-- C2: when the cache holds an entry for the endpoint whose expiry is
strictly greater than the current time, `get_skey` returns the cached key
with zero login calls and an unchanged cache; and after a run that did
perform a (successful) login at time `T`, any sequential run before
`T + 1800` seconds (30 minutes) performs zero login calls, returns the
same key, and leaves the cache unchanged — so at most one login occurs
per expiry cycle under sequential use. -/
theorem claim_C2 :
    (∀ (cfg : SkeyCfg) (rows : List CacheRow) (msa : String × String) (now : Int)
        (resp : LoginResp) (r : CacheRow),
        selectCache cfg.useSSL msa rows = some r → now < r.expired →
        get_skey cfg (.table rows) msa now resp = .ok ⟨some r.skey, .table rows, 0⟩)
    ∧ (∀ (cfg : SkeyCfg) (rows : List CacheRow) (msa : String × String) (T : Int)
        (resp : LoginResp) (out : SkeyOut) (t : Int),
        resp.retCode = "1" →
        get_skey cfg (.table rows) msa T resp = .ok out → out.logins = 1 →
        t < T + 1800 →
        ∀ resp2 : LoginResp,
          get_skey cfg out.db msa t resp2 = .ok ⟨some resp.response, out.db, 0⟩) := by
  constructor
  · intro cfg rows msa now resp r hsel hlt
    simp [get_skey, sql_cmd, hsel, hlt]
  · intro cfg rows msa T resp out t h1 hrun hlog hlt resp2
    obtain ⟨rows2, r, hlogin, hsel2, hexp, hskey⟩ :=
      login_success_state cfg rows msa T resp h1
    have hout : out = ⟨some resp.response, .table rows2, 1⟩ := by
      simp only [get_skey, sql_cmd] at hrun
      cases hsel : selectCache cfg.useSSL msa rows with
      | some r0 =>
        rw [hsel] at hrun
        have hrun2 : (if T < r0.expired then
              (.ok ⟨some r0.skey, .table rows, 0⟩ : Except PyErr SkeyOut)
            else get_skey_login cfg (.table rows) msa T resp) = .ok out := hrun
        by_cases hlt0 : T < r0.expired
        · rw [if_pos hlt0] at hrun2
          cases Except.ok.inj hrun2
          simp at hlog
        · rw [if_neg hlt0] at hrun2
          rw [hlogin] at hrun2
          exact (Except.ok.inj hrun2).symm
      | none =>
        rw [hsel] at hrun
        have hrun2 : get_skey_login cfg (.table rows) msa T resp = .ok out := hrun
        rw [hlogin] at hrun2
        exact (Except.ok.inj hrun2).symm
    subst hout
    simp only [get_skey, sql_cmd, hsel2]
    rw [if_pos (show t < r.expired by rw [hexp]; exact hlt), hskey]

/-- C2 witness: both parts of the theorem applied at concrete inputs; the
second application reuses, at time 500, the key cached by a successful
login at time 100 (expiry 1900). -/
theorem claim_C2_witness :
    get_skey ⟨false, false, "h1"⟩
        (.table [⟨"msa1", "10.0.0.5", "http", 2000, "CACHEDKEY"⟩])
        ("10.0.0.5", "msa1") 100 ⟨"1", "NEWKEY"⟩
      = .ok ⟨some "CACHEDKEY", .table [⟨"msa1", "10.0.0.5", "http", 2000, "CACHEDKEY"⟩], 0⟩
    ∧ get_skey ⟨false, false, "h1"⟩
        (.table [⟨"msa1", "10.0.0.5", "http", 1900, "K"⟩]) ("10.0.0.5", "msa1") 500 ⟨"2", "x"⟩
      = .ok ⟨some "K", .table [⟨"msa1", "10.0.0.5", "http", 1900, "K"⟩], 0⟩ :=
  ⟨claim_C2.1 ⟨false, false, "h1"⟩ [⟨"msa1", "10.0.0.5", "http", 2000, "CACHEDKEY"⟩]
      ("10.0.0.5", "msa1") 100 ⟨"1", "NEWKEY"⟩ ⟨"msa1", "10.0.0.5", "http", 2000, "CACHEDKEY"⟩
      (by decide) (by decide),
   claim_C2.2 ⟨false, false, "h1"⟩ [] ("10.0.0.5", "msa1") 100 ⟨"1", "K"⟩
      ⟨some "K", .table [⟨"msa1", "10.0.0.5", "http", 1900, "K"⟩], 1⟩ 500
      rfl (by decide) rfl (by decide) ⟨"2", "x"⟩⟩

/-- C3: on an empty cache, a login answered with return-code "1" and
session key `K` makes `get_skey` issue exactly one login request, insert a
cache row keyed by the endpoint and the active protocol with expiry
`now + 1800` seconds (30 minutes), and return `K`. -/
theorem claim_C3 (ssl verify : Bool) (hl ip dns : String) (now : Int) (K : String) :
    get_skey ⟨ssl, verify, hl⟩ (.table []) (ip, dns) now ⟨"1", K⟩
      = .ok ⟨some K,
          .table [⟨dns, ip, if ssl then "https" else "http", now + 1800, K⟩], 1⟩ := by
  cases ssl <;>
    simp [get_skey, get_skey_login, sql_cmd, sql_write, selectCache, List.find?]

/-- C8 counterexample: with the cache table absent (uninitialised cache),
`get_skey` terminates the invocation with `SystemExit("Cache is empty")`
instead of treating the condition as a recoverable cache miss. -/
theorem claim_C8_counterexample :
    get_skey ⟨false, false, "abc123"⟩ .noTable ("10.0.0.5", "msa1") 1000 ⟨"1", "K"⟩
      = .error (.systemExit "Cache is empty") := by
  decide

/-- C8 (amended): querying an uninitialised cache (table absent) is
distinguished from other query failures — it exits with the dedicated
message "Cache is empty", while any other operational error exits with a
message starting "ERROR: " — but it is fatal to the invocation
(`SystemExit`), not treated as a cache miss. -/
theorem claim_C8 (cfg : SkeyCfg) (msa : String × String) (now : Int) (resp : LoginResp) :
    get_skey cfg .noTable msa now resp = .error (.systemExit "Cache is empty")
    ∧ (∀ e : String, ∃ msg : String,
        get_skey cfg (.corrupt e) msa now resp = .error (.systemExit msg)
        ∧ msg.data.head? = some 'E')
    ∧ "Cache is empty".data.head? = some 'C'
    ∧ ('E' == 'C') = false := by
  refine ⟨by simp [get_skey, sql_cmd], fun e => ?_, by decide, by decide⟩
  refine ⟨"ERROR: " ++ e ++ ". Query: " ++ qSelect cfg.useSSL msa,
    by simp [get_skey, sql_cmd], ?_⟩
  simp [String.data_append]

/-- Characterisation of `portFullData` when the five required properties
are present: the result dict is `portBase` plus the `ss`/`sfps` pair
dictated by the SFP sub-object, or the `AttributeError` / `KeyError` of
the corresponding failure path. -/
theorem portFullData_char (o : XObj) (pn h pt pas st : String)
    (h1 : o.props.lookup "port" = some pn)
    (h2 : o.props.lookup "health-numeric" = some h)
    (h3 : o.props.lookup "port-type" = some pt)
    (h4 : o.props.lookup "actual-speed" = some pas)
    (h5 : o.props.lookup "status" = some st) :
    portFullData o =
      match findSubProp o "port-details" "sfp-status-numeric",
            findSubProp o "port-details" "sfp-status" with
      | some n, some c => .ok (pn, portBase o h pt pas st ++ [("ss", n), ("sfps", c)])
      | some _, none => .error .attributeError
      | none, some c =>
        match sfp_status_map.lookup c with
        | some code => .ok (pn, portBase o h pt pas st ++ [("ss", code), ("sfps", c)])
        | none => .error (.keyError c)
      | none, none => .ok (pn, portBase o h pt pas st) := by
  simp only [portFullData, h1, h2, h3, h4, h5]
  cases hsn : o.props.lookup "status-numeric" with
  | none =>
    cases hn : findSubProp o "port-details" "sfp-status-numeric" with
    | none =>
      cases hc : findSubProp o "port-details" "sfp-status" with
      | none => simp [portBase, hsn]
      | some c =>
        cases hm : sfp_status_map.lookup c with
        | none => simp [hm]
        | some code => simp [hm, portBase, hsn, pyDictSet]
    | some n =>
      cases hc : findSubProp o "port-details" "sfp-status" with
      | none => simp
      | some c => simp [portBase, hsn, pyDictSet]
  | some v =>
    cases hn : findSubProp o "port-details" "sfp-status-numeric" with
    | none =>
      cases hc : findSubProp o "port-details" "sfp-status" with
      | none => simp [portBase, hsn, pyDictSet]
      | some c =>
        cases hm : sfp_status_map.lookup c with
        | none => simp [hm]
        | some code => simp [hm, portBase, hsn, pyDictSet]
    | some n =>
      cases hc : findSubProp o "port-details" "sfp-status" with
      | none => simp
      | some c => simp [portBase, hsn, pyDictSet]

/-- C4: for every component kind (any entry of the two hard-coded maps)
and every response, `make_lld` does not raise — it returns an entry for
each matching instance — and an instance that lacks one of the mapped
properties gets the "UNKNOWN" sentinel for the corresponding macro. -/
theorem claim_C4 (component apiName : String) (pm : List (String × String))
    (hn : comp_names_map.lookup component = some apiName)
    (hp : comp_props_map.lookup component = some pm) :
    (∀ resp : ApiResp, resp.retCode = "0" →
        make_lld resp component
          = .ok ((objsNamed resp apiName).map (lldEntry component pm)))
    ∧ (∀ (o : XObj) (mcr prop : String), pm.lookup mcr = some prop →
        o.props.lookup prop = none →
        (lldEntry component pm o).lookup mcr = some "UNKNOWN") := by
  constructor
  · intro resp h0
    simp [make_lld, h0, hn, hp]
  · intro o mcr prop hmp hmiss
    have hbase : (pm.map (fun kv => (kv.1, (o.props.lookup kv.2).getD "UNKNOWN"))).lookup mcr
        = some "UNKNOWN" := by
      rw [lookup_lldmap, hmp]
      simp [hmiss]
    by_cases hc : component = "ports"
    · simp only [lldEntry, if_pos hc]
      exact lookup_append_some _ _ _ hbase
    · simp only [lldEntry, if_neg hc]
      exact hbase

/-- C4 witness: a disks response whose only drive lacks the
`serial-number`, `model` and `architecture` properties is discovered
without error, with the sentinel in the missing fields. -/
theorem claim_C4_witness :
    make_lld ⟨"0", "OK", [("drive", ⟨[("location", "1.1")], []⟩)]⟩ "disks"
      = .ok [[("\x7b#DISK.ID\x7d", "1.1"), ("\x7b#DISK.SN\x7d", "UNKNOWN"),
              ("\x7b#DISK.MODEL\x7d", "UNKNOWN"), ("\x7b#DISK.ARCH\x7d", "UNKNOWN")]]
    ∧ (lldEntry "disks"
        [("\x7b#DISK.ID\x7d", "location"), ("\x7b#DISK.SN\x7d", "serial-number"),
         ("\x7b#DISK.MODEL\x7d", "model"), ("\x7b#DISK.ARCH\x7d", "architecture")]
        ⟨[("location", "1.1")], []⟩).lookup "\x7b#DISK.MODEL\x7d" = some "UNKNOWN" :=
  ⟨(claim_C4 "disks" "drive"
      [("\x7b#DISK.ID\x7d", "location"), ("\x7b#DISK.SN\x7d", "serial-number"),
       ("\x7b#DISK.MODEL\x7d", "model"), ("\x7b#DISK.ARCH\x7d", "architecture")]
      (by decide) (by decide)).1 ⟨"0", "OK", [("drive", ⟨[("location", "1.1")], []⟩)]⟩ rfl,
   (claim_C4 "disks" "drive"
      [("\x7b#DISK.ID\x7d", "location"), ("\x7b#DISK.SN\x7d", "serial-number"),
       ("\x7b#DISK.MODEL\x7d", "model"), ("\x7b#DISK.ARCH\x7d", "architecture")]
      (by decide) (by decide)).2 ⟨[("location", "1.1")], []⟩
      "\x7b#DISK.MODEL\x7d" "model" (by decide) (by decide)⟩

/-- C10: with the five required port properties present, the `ps` key of
the full-mode ports dict holds the `status-numeric` text exactly when that
property is present and the textual `status` otherwise, and the dict has
no key besides `h`, `pt`, `pas`, `ps` and (when the SFP sub-object
provides them) `ss`, `sfps` — in particular the textual status is not
emitted under a separate key when the numeric one overwrites `ps`. -/
theorem claim_C10 (o : XObj) (pn h pt pas st : String)
    (h1 : o.props.lookup "port" = some pn)
    (h2 : o.props.lookup "health-numeric" = some h)
    (h3 : o.props.lookup "port-type" = some pt)
    (h4 : o.props.lookup "actual-speed" = some pas)
    (h5 : o.props.lookup "status" = some st) :
    ∀ (k : String) (d : List (String × String)), portFullData o = .ok (k, d) →
      d.lookup "ps" = some ((o.props.lookup "status-numeric").getD st)
      ∧ (d.map Prod.fst = ["h", "pt", "pas", "ps"]
         ∨ d.map Prod.fst = ["h", "pt", "pas", "ps", "ss", "sfps"]) := by
  intro k d hok
  rw [portFullData_char o pn h pt pas st h1 h2 h3 h4 h5] at hok
  cases hn : findSubProp o "port-details" "sfp-status-numeric" with
  | none =>
    cases hc : findSubProp o "port-details" "sfp-status" with
    | none =>
      rw [hn, hc] at hok
      obtain ⟨rfl, rfl⟩ := Prod.mk.inj (Except.ok.inj hok)
      cases hsn : o.props.lookup "status-numeric" <;>
        simp [portBase, hsn, List.lookup]
    | some c =>
      rw [hn, hc] at hok
      have hok2 : (match sfp_status_map.lookup c with
          | some code =>
            (.ok (pn, portBase o h pt pas st ++ [("ss", code), ("sfps", c)]) :
              Except PyErr (String × List (String × String)))
          | none => .error (.keyError c)) = .ok (k, d) := hok
      cases hm : sfp_status_map.lookup c with
      | none => rw [hm] at hok2; cases hok2
      | some code =>
        rw [hm] at hok2
        obtain ⟨rfl, rfl⟩ := Prod.mk.inj (Except.ok.inj hok2)
        cases hsn : o.props.lookup "status-numeric" <;>
          simp [portBase, hsn, List.lookup]
  | some n =>
    cases hc : findSubProp o "port-details" "sfp-status" with
    | none => rw [hn, hc] at hok; cases hok
    | some c =>
      rw [hn, hc] at hok
      obtain ⟨rfl, rfl⟩ := Prod.mk.inj (Except.ok.inj hok)
      cases hsn : o.props.lookup "status-numeric" <;>
        simp [portBase, hsn, List.lookup]

/-- C10 witness: a port reporting both textual status "Up" and
`status-numeric` "1", with no SFP sub-object, yields `ps` = "1" and
exactly the four base keys. -/
theorem claim_C10_witness :
    ([("h", "1"), ("pt", "FC"), ("pas", "8Gb"), ("ps", "1")] :
        List (String × String)).lookup "ps" = some "1"
    ∧ (([("h", "1"), ("pt", "FC"), ("pas", "8Gb"), ("ps", "1")] :
          List (String × String)).map Prod.fst = ["h", "pt", "pas", "ps"]
       ∨ ([("h", "1"), ("pt", "FC"), ("pas", "8Gb"), ("ps", "1")] :
          List (String × String)).map Prod.fst = ["h", "pt", "pas", "ps", "ss", "sfps"]) :=
  claim_C10 ⟨[("port", "A1"), ("health-numeric", "1"), ("port-type", "FC"),
      ("actual-speed", "8Gb"), ("status", "Up"), ("status-numeric", "1")], []⟩
    "A1" "1" "FC" "8Gb" "Up" rfl rfl rfl rfl rfl
    "A1" [("h", "1"), ("pt", "FC"), ("pas", "8Gb"), ("ps", "1")] (by decide)

/-- C6: the hard-coded SFP mapping sends "Not compatible" to "0",
"Incorrect protocol" to "1", "Not present" to "2" and "OK" to "3"; when
the numeric `sfp-status-numeric` field is absent and the textual
`sfp-status` field is present, a mapped value fills `ss` with the numeric
code (and `sfps` with the text), while a value outside the map makes the
extraction fail with the `KeyError` of the unknown text (classified as the
protocol error of the spec taxonomy). -/
theorem claim_C6 :
    (sfp_status_map.lookup "Not compatible" = some "0"
     ∧ sfp_status_map.lookup "Incorrect protocol" = some "1"
     ∧ sfp_status_map.lookup "Not present" = some "2"
     ∧ sfp_status_map.lookup "OK" = some "3")
    ∧ ∀ (o : XObj) (pn h pt pas st c : String),
        o.props.lookup "port" = some pn →
        o.props.lookup "health-numeric" = some h →
        o.props.lookup "port-type" = some pt →
        o.props.lookup "actual-speed" = some pas →
        o.props.lookup "status" = some st →
        findSubProp o "port-details" "sfp-status-numeric" = none →
        findSubProp o "port-details" "sfp-status" = some c →
        ((∀ code : String, sfp_status_map.lookup c = some code →
            ∃ d, portFullData o = .ok (pn, d)
              ∧ d.lookup "ss" = some code ∧ d.lookup "sfps" = some c)
         ∧ (sfp_status_map.lookup c = none →
            portFullData o = .error (.keyError c))) := by
  refine ⟨by decide, ?_⟩
  intro o pn h pt pas st c h1 h2 h3 h4 h5 hn hc
  constructor
  · intro code hm
    refine ⟨portBase o h pt pas st ++ [("ss", code), ("sfps", c)], ?_, ?_, ?_⟩
    · simp only [portFullData_char o pn h pt pas st h1 h2 h3 h4 h5, hn, hc, hm]
    · cases hsn : o.props.lookup "status-numeric" <;>
        simp [portBase, hsn, List.lookup]
    · cases hsn : o.props.lookup "status-numeric" <;>
        simp [portBase, hsn, List.lookup]
  · intro hm
    simp only [portFullData_char o pn h pt pas st h1 h2 h3 h4 h5, hn, hc, hm]

/-- C6 witness: a port whose `port-details` reports only textual
`sfp-status` "OK" yields `ss` = "3", and an unknown text "Weird" fails
with its `KeyError`. -/
theorem claim_C6_witness :
    (∃ d, portFullData ⟨[("port", "A1"), ("health-numeric", "1"), ("port-type", "FC"),
        ("actual-speed", "8Gb"), ("status", "Up")],
        [("port-details", [("sfp-status", "OK")])]⟩ = .ok ("A1", d)
      ∧ d.lookup "ss" = some "3" ∧ d.lookup "sfps" = some "OK")
    ∧ portFullData ⟨[("port", "A2"), ("health-numeric", "1"), ("port-type", "FC"),
        ("actual-speed", "8Gb"), ("status", "Up")],
        [("port-details", [("sfp-status", "Weird")])]⟩ = .error (.keyError "Weird") :=
  ⟨(claim_C6.2 ⟨[("port", "A1"), ("health-numeric", "1"), ("port-type", "FC"),
        ("actual-speed", "8Gb"), ("status", "Up")],
        [("port-details", [("sfp-status", "OK")])]⟩
      "A1" "1" "FC" "8Gb" "Up" "OK" rfl rfl rfl rfl rfl (by decide) (by decide)).1
      "3" (by decide),
   (claim_C6.2 ⟨[("port", "A2"), ("health-numeric", "1"), ("port-type", "FC"),
        ("actual-speed", "8Gb"), ("status", "Up")],
        [("port-details", [("sfp-status", "Weird")])]⟩
      "A2" "1" "FC" "8Gb" "Up" "Weird" rfl rfl rfl rfl rfl (by decide) (by decide)).2
      (by decide)⟩

/-- C9 counterexample: a ports response whose single port carries textual
`sfp-status` "Not present" in `port-details` and no numeric field, but no
`sfp-present` property, gets a discovery entry whose SFP macro is
"UNKNOWN" — not "Not present" as the claim states — because `make_lld`
reads the `sfp-present` property, not `sfp-status`. -/
theorem claim_C9_counterexample :
    make_lld ⟨"0", "OK", [("ports",
        ⟨[("port", "A1"), ("port-type", "FC"), ("actual-speed", "8Gb")],
         [("port-details", [("sfp-status", "Not present")])]⟩)]⟩ "ports"
      = .ok [[("\x7b#PORT.ID\x7d", "A1"), ("\x7b#PORT.TYPE\x7d", "FC"),
              ("\x7b#PORT.SPEED\x7d", "8Gb"), ("\x7b#PORT.SFP\x7d", "UNKNOWN")]]
    ∧ ("UNKNOWN" == "Not present") = false := by
  exact ⟨by decide, by decide⟩

/-- C9 (amended): the discovery SFP macro reports the `sfp-present`
property of `port-details` — its value when present, "UNKNOWN" otherwise;
`sfp-status` is not consulted by discovery.  In full mode, textual
`sfp-status` "Not present" with no numeric field sets the `ss` metric to
"2". -/
theorem claim_C9 :
    (∀ (o : XObj) (pm : List (String × String)),
        comp_props_map.lookup "ports" = some pm →
        (lldEntry "ports" pm o).lookup "\x7b#PORT.SFP\x7d"
          = some ((findSubProp o "port-details" "sfp-present").getD "UNKNOWN"))
    ∧ (∀ (o : XObj) (pn h pt pas st : String),
        o.props.lookup "port" = some pn →
        o.props.lookup "health-numeric" = some h →
        o.props.lookup "port-type" = some pt →
        o.props.lookup "actual-speed" = some pas →
        o.props.lookup "status" = some st →
        findSubProp o "port-details" "sfp-status-numeric" = none →
        findSubProp o "port-details" "sfp-status" = some "Not present" →
        ∃ d, portFullData o = .ok (pn, d) ∧ d.lookup "ss" = some "2") := by
  constructor
  · intro o pm hpm
    simp only [comp_props_map, List.lookup] at hpm
    simp only [show ("ports" == "vdisks") = false from rfl,
      show ("ports" == "fans") = false from rfl,
      show ("ports" == "ports") = true from rfl] at hpm
    have hpm2 := Option.some.inj hpm
    subst hpm2
    simp [lldEntry, List.lookup]
  · intro o pn h pt pas st h1 h2 h3 h4 h5 hn hc
    refine ⟨portBase o h pt pas st ++ [("ss", "2"), ("sfps", "Not present")], ?_, ?_⟩
    · simp only [portFullData_char o pn h pt pas st h1 h2 h3 h4 h5, hn, hc]
      simp [sfp_status_map, List.lookup]
    · cases hsn : o.props.lookup "status-numeric" <;>
        simp [portBase, hsn, List.lookup]

/-- C9 witness: both parts applied at concrete ports objects. -/
theorem claim_C9_witness :
    (lldEntry "ports"
        [("\x7b#PORT.ID\x7d", "port"), ("\x7b#PORT.TYPE\x7d", "port-type"),
         ("\x7b#PORT.SPEED\x7d", "actual-speed")]
        ⟨[("port", "A1")], [("port-details", [("sfp-present", "Not present")])]⟩).lookup
        "\x7b#PORT.SFP\x7d" = some "Not present"
    ∧ ∃ d, portFullData ⟨[("port", "A1"), ("health-numeric", "1"), ("port-type", "FC"),
          ("actual-speed", "8Gb"), ("status", "Up")],
          [("port-details", [("sfp-status", "Not present")])]⟩ = .ok ("A1", d)
        ∧ d.lookup "ss" = some "2" :=
  ⟨claim_C9.1 ⟨[("port", "A1")], [("port-details", [("sfp-present", "Not present")])]⟩
      [("\x7b#PORT.ID\x7d", "port"), ("\x7b#PORT.TYPE\x7d", "port-type"),
       ("\x7b#PORT.SPEED\x7d", "actual-speed")] (by decide),
   claim_C9.2 ⟨[("port", "A1"), ("health-numeric", "1"), ("port-type", "FC"),
        ("actual-speed", "8Gb"), ("status", "Up")],
        [("port-details", [("sfp-status", "Not present")])]⟩
      "A1" "1" "FC" "8Gb" "Up" rfl rfl rfl rfl rfl (by decide) (by decide)⟩

/-- C5 counterexample: a power-supplies response whose only instance is
named "Voltage Regulator 1" still appears in the discovery output of
`make_lld` — the voltage-regulator filter exists only in the full-mode
branch of `get_full_json`, so the claim fails for discovery mode. -/
theorem claim_C5_counterexample :
    make_lld ⟨"0", "OK", [("power-supplies",
        ⟨[("durable-id", "psu_vr1"), ("location", "Enclosure 1 - Left"),
          ("name", "Voltage Regulator 1")], []⟩)]⟩ "power-supplies"
      = .ok [[("\x7b#POWERSUPPLY.ID\x7d", "psu_vr1"),
              ("\x7b#POWERSUPPLY.LOCATION\x7d", "Enclosure 1 - Left"),
              ("\x7b#POWERSUPPLY.NAME\x7d", "Voltage Regulator 1")]]
    ∧ isVoltageRegulator "Voltage Regulator 1" = true := by
  exact ⟨by decide, by decide⟩

/-- C5 (amended): instances whose name contains "voltage regulator" in any
letter case are excluded from the full-mode (`get_full_json`) result —
every processed such object contributes nothing, and every entry of the
result comes from an object the loop accepted — while discovery mode
applies no such filter. -/
theorem claim_C5 :
    (∀ (o : XObj) (i nm : String),
        o.props.lookup "durable-id" = some i →
        o.props.lookup "name" = some nm →
        isVoltageRegulator nm = true →
        psFullData o = .ok none)
    ∧ (∀ (resp : ApiResp) (l : List (String × List (String × String)))
          (e : String × List (String × String)),
        getFullPowerSupplies resp = .ok l → e ∈ l →
        ∃ o, o ∈ objsNamed resp "power-supplies" ∧ psFullData o = .ok (some e)) := by
  constructor
  · intro o i nm hid hnm hvr
    simp [psFullData, hid, hnm, hvr]
  · intro resp l e hok he
    simp only [getFullPowerSupplies] at hok
    by_cases h0 : resp.retCode = "0"
    · rw [if_neg (by simp [h0])] at hok
      rcases psLoop_mem _ _ _ hok e he with h1 | h2
      · cases h1
      · exact h2
    · rw [if_pos h0] at hok
      cases hok

/-- C5 witness: the amended theorem applied to a voltage-regulator object
and to a response with one ordinary power supply. -/
theorem claim_C5_witness :
    psFullData ⟨[("durable-id", "psu_vr1"), ("name", "Voltage Regulator 1")], []⟩
      = .ok none
    ∧ ∃ o, o ∈ objsNamed ⟨"0", "OK", [("power-supplies",
          ⟨[("durable-id", "psu_1"), ("name", "PSU 1, Left"),
            ("health-numeric", "0"), ("status-numeric", "1"), ("dc12v", "1195"),
            ("dc5v", "507"), ("dc33v", "336"), ("dc12i", "29"), ("dc5i", "0")],
           []⟩)]⟩ "power-supplies"
        ∧ psFullData o = .ok (some ("psu_1",
            [("h", "0"), ("s", "1"), ("12v", "1195"), ("5v", "507"),
             ("33v", "336"), ("12i", "29"), ("5i", "0")])) :=
  ⟨claim_C5.1 ⟨[("durable-id", "psu_vr1"), ("name", "Voltage Regulator 1")], []⟩
      "psu_vr1" "Voltage Regulator 1" rfl rfl (by decide),
   claim_C5.2 ⟨"0", "OK", [("power-supplies",
        ⟨[("durable-id", "psu_1"), ("name", "PSU 1, Left"),
          ("health-numeric", "0"), ("status-numeric", "1"), ("dc12v", "1195"),
          ("dc5v", "507"), ("dc33v", "336"), ("dc12i", "29"), ("dc5i", "0")],
         []⟩)]⟩
      [("psu_1", [("h", "0"), ("s", "1"), ("12v", "1195"), ("5v", "507"),
                  ("33v", "336"), ("12i", "29"), ("5i", "0")])]
      ("psu_1", [("h", "0"), ("s", "1"), ("12v", "1195"), ("5v", "507"),
                 ("33v", "336"), ("12i", "29"), ("5i", "0")])
      (by decide) (by decide)⟩

/-- C7: the code is the bug here.  A full-mode ports result — which always
carries the `pt` (port-type) key — makes `expand_dict` fail with
`KeyError("pt")`, because the expansion dict `m` lacks `pt` (and `pas`,
`sfps`, and all pools / volumes / disk-group size keys), contradicting the
claim that `expand_dict` never fails on a key produced by
`get_full_json`. -/
theorem claim_C7 :
    getFullPorts ⟨"0", "OK", [("ports",
        ⟨[("port", "A1"), ("health-numeric", "1"), ("port-type", "FC"),
          ("actual-speed", "8Gb"), ("status", "Up"), ("status-numeric", "1")],
         [("port-details", [("sfp-status", "OK"), ("sfp-status-numeric", "3")])]⟩)]⟩
      = .ok [("A1", [("h", "1"), ("pt", "FC"), ("pas", "8Gb"), ("ps", "1"),
                     ("ss", "3"), ("sfps", "OK")])]
    ∧ expand_dict [("A1", [("h", "1"), ("pt", "FC"), ("pas", "8Gb"), ("ps", "1"),
                           ("ss", "3"), ("sfps", "OK")])]
      = .error (.keyError "pt") := by
  exact ⟨by decide, by decide⟩
